import Mathlib

/-!
Verification of the generic route-handler core of crudtastic
(`src/lib/route-handlers.js`).

Shallow embedding conventions:
* A record (bookshelf model instance / JSON object) is an association list
  of string keys to natural-number values (`Attrs`); JS objects have no
  duplicate keys, which appears as a `Nodup` hypothesis where needed.
* A promise is `Except String α`: `.ok` is resolution, `.error` is rejection.
* The response sink, data-model collaborator calls and the dispatcher
  contract are external to `route-handlers.js`; they are modelled from the
  spec where noted.
-/

/-- A flat JS object / bookshelf model attribute bag: keys to numeric values. -/
abbrev Attrs := List (String × Nat)

/-- Attribute lookup: the value at key `k`, `none` if absent. -/
def Attrs.get : Attrs → String → Option Nat
  | [], _ => none
  | kv :: rest, k => if kv.1 = k then some kv.2 else Attrs.get rest k

/-- `delete safeParams.id` on a JS object: drop the `id` key. -/
def Attrs.eraseId (p : Attrs) : Attrs :=
  p.filter (fun kv => kv.1 != "id")

/-- Set a single attribute: replace the value at the key if present,
append otherwise (key-value map semantics of a JS object / bookshelf
attribute hash). -/
def Attrs.setOne (r : Attrs) (kv : String × Nat) : Attrs :=
  match r with
  | [] => [kv]
  | p :: rest => if p.1 = kv.1 then (p.1, kv.2) :: rest else p :: Attrs.setOne rest kv

/-- Modelled from the spec: the data model's `set(attrs)` — "applies the
remaining fields to the already-loaded resource in memory" — merges the
given attributes into the record, leaving other fields unchanged. -/
def Attrs.set (r new : Attrs) : Attrs :=
  new.foldl Attrs.setOne r

/-- `{...o}`: a shallow spread copy of a flat object. In a pure embedding the
copy is identity on the value; what matters is that mutations downstream of
the copy are applied to the copy's value, never to the original field. -/
def objSpread (o : Attrs) : Attrs := o

/-- Response bodies: empty (`ok()`), one resource, or a collection. -/
inductive Body
  | empty
  | single (r : Attrs)
  | collection (rs : List Attrs)
deriving DecidableEq

/-- Modelled from the spec: the response sink's terminal descriptor —
status, headers, body. -/
structure Response where
  status : Nat
  headers : List (String × String)
  body : Body
deriving DecidableEq

/-- Modelled from the spec: the sink's default state before chaining. -/
def Response.base : Response := ⟨200, [], Body.empty⟩

/-- Modelled from the spec: `ok(body?)` — success status with the given body. -/
def Response.ok (b : Body) : Response := ⟨200, [], b⟩

/-- Modelled from the spec: `notFound()` — 404 with empty body. -/
def Response.notFound : Response := ⟨404, [], Body.empty⟩

/-- Modelled from the spec: chainable `withStatus(code)`. -/
def Response.withStatus (r : Response) (s : Nat) : Response := { r with status := s }

/-- Modelled from the spec: chainable `withHeader(name, value)`. -/
def Response.withHeader (r : Response) (n v : String) : Response :=
  { r with headers := r.headers ++ [(n, v)] }

/-- Modelled from the spec: chainable `withBody(body)`. -/
def Response.withBody (r : Response) (b : Body) : Response := { r with body := b }

/-- Look up a response header by name. -/
def Response.header (r : Response) (n : String) : Option String :=
  (r.headers.find? (fun h => h.1 == n)).map Prod.snd

/-- The closed set of handler classes of `route-handlers.js`. -/
inductive HandlerKind
  | GenericRouteHandler
  | IndexRouteHandler
  | CreateRouteHandler
  | ExistingResourceRouteHandler
  | ShowRouteHandler
  | ExistsRouteHandler
  | UpdateRouteHandler
  | DestroyRouteHandler
deriving DecidableEq

/-- `this.constructor.name` of each handler class. -/
def HandlerKind.constructorName : HandlerKind → String
  | .GenericRouteHandler => "GenericRouteHandler"
  | .IndexRouteHandler => "IndexRouteHandler"
  | .CreateRouteHandler => "CreateRouteHandler"
  | .ExistingResourceRouteHandler => "ExistingResourceRouteHandler"
  | .ShowRouteHandler => "ShowRouteHandler"
  | .ExistsRouteHandler => "ExistsRouteHandler"
  | .UpdateRouteHandler => "UpdateRouteHandler"
  | .DestroyRouteHandler => "DestroyRouteHandler"

/-- The `requiresTransaction` getter: `false` on the base
(`GenericRouteHandler`, inherited by Index, Show, Exists and
ExistingResource), overridden to `true` in Create, Update and Destroy. -/
def HandlerKind.requiresTransaction : HandlerKind → Bool
  | .CreateRouteHandler => true
  | .UpdateRouteHandler => true
  | .DestroyRouteHandler => true
  | _ => false

/-- Which classes define their own `handle()`. `GenericRouteHandler` and
`ExistingResourceRouteHandler` do not: a call falls through to the base. -/
def HandlerKind.overridesHandle : HandlerKind → Bool
  | .GenericRouteHandler => false
  | .ExistingResourceRouteHandler => false
  | _ => true

/-- `GenericRouteHandler.handle()`: throws
`${this.constructor.name} did not implement handle()` —
a rejected outcome carrying the class name. -/
def GenericRouteHandler.handle (k : HandlerKind) : Except String Response :=
  Except.error (k.constructorName ++ " did not implement handle()")

/-- `GenericRouteHandler.processParams(params)`: stores the params verbatim
and resolves `null` — no terminal response. -/
def GenericRouteHandler.processParams (params : Attrs) : Attrs × Option Response :=
  (params, none)

/-- Dynamic dispatch of `handle()`: the class's own body when it overrides
it, the base's throwing body otherwise. -/
def dispatchedHandle (k : HandlerKind) (leaf : Except String Response) :
    Except String Response :=
  if k.overridesHandle then leaf else GenericRouteHandler.handle k

/-- Modelled from the spec: the dispatcher contract — a terminal response
produced by `processParams` is returned as-is and `handle()` is skipped;
otherwise `handle()` runs and its rejection is not caught in the core. -/
def runDispatch (proc : Option Response) (handle : Unit → Except String Response) :
    Except String Response :=
  match proc with
  | some r => Except.ok r
  | none => handle ()

/-- Outcome of `ExistingResourceRouteHandler.processParams`: what
`ctx.resource` was assigned (outer `none` = never assigned), what was
logged, and the terminal response if one was produced. -/
structure ProcOutcome where
  ctxResource : Option (Option Attrs)
  logged : List (String × String)
  terminal : Option Response
deriving DecidableEq

/-- `ExistingResourceRouteHandler.processParams`, as a function of the
outcome of `new this.Model({ id }).fetch()`: on resolution the `.then`
branch stores the resolved value on `ctx.resource` and the promise resolves
with no terminal response; on rejection the `.catch` branch logs the error
in red and resolves `this.res.notFound()`. -/
def ExistingResourceRouteHandler.processParams (fetch : Except String (Option Attrs)) :
    ProcOutcome :=
  match fetch with
  | Except.ok r => { ctxResource := some r, logged := [], terminal := none }
  | Except.error err =>
      { ctxResource := none, logged := [(err, "red")], terminal := some Response.notFound }

/-- Modelled from the spec: the data model's fetch-by-id collaborator —
"attempts to load exactly one resource by the `id` parameter"; "failure is
signaled via rejection, not return codes", so a nonexistent id rejects. -/
def Model.fetchById (db : List Attrs) (id : Nat) : Except String Attrs :=
  match db.find? (fun r => Attrs.get r "id" == some id) with
  | some r => Except.ok r
  | none => Except.error "NotFoundError"

/-- Modelled from the spec: dispatching an existing-resource handler against
a database — run `processParams` (whose fetch is `Model.fetchById`), stop at
a terminal response, otherwise invoke the leaf `handle` on the loaded
resource. The first component counts `handle` invocations. -/
def dispatchExisting (db : List Attrs) (id : Nat)
    (handle : Option Attrs → Except String Response) : Nat × Except String Response :=
  let proc := ExistingResourceRouteHandler.processParams ((Model.fetchById db id).map some)
  match proc.terminal with
  | some resp => (0, Except.ok resp)
  | none => (1, handle proc.ctxResource.join)

/-- `IndexRouteHandler.handle()`, as a function of the collection resolved by
`Model.fetchAll()`: responds `ok` with the collection as body. -/
def IndexRouteHandler.handle (collection : List Attrs) : Response :=
  Response.ok (Body.collection collection)

/-- `CreateRouteHandler.handle()`: saves a model built from the processed
params (the `save` argument is the data model's persistence under the active
transaction) and on success chains
`withHeader Location (urlFor saved) |> withBody saved |> withStatus 201`. -/
def CreateRouteHandler.handle (urlFor : Attrs → String) (params : Attrs)
    (save : Attrs → Except String Attrs) : Except String Response :=
  (save params).map (fun saved =>
    ((Response.base.withHeader "Location" (urlFor saved)).withBody
        (Body.single saved)).withStatus 201)

/-- `ExistsRouteHandler.processParams`, as a function of the count resolved
by `new this.Model().where('id', params.id).count()`: a truthy (nonzero)
count resolves `ok()`, zero resolves `notFound()`. -/
def ExistsRouteHandler.processParams (count : Nat) : Response :=
  if count != 0 then Response.ok Body.empty else Response.notFound

/-- The mutable per-request state `UpdateRouteHandler.handle()` touches:
`this.params` (stored by `processParams`) and `ctx.resource`. -/
structure UpdateState where
  params : Attrs
  resource : Attrs
deriving DecidableEq

/-- `UpdateRouteHandler.handle()`: copies `this.params` with spread, deletes
`id` from the copy, `set`s the remaining fields on the loaded resource in
memory, persists via `save` (the data model's persistence under the active
transaction, resolving the model itself) and responds `ok` with the result.
Returns the post-call state alongside the outcome. -/
def UpdateRouteHandler.handle (s : UpdateState) (save : Attrs → Except String Attrs) :
    UpdateState × Except String Response :=
  let safeParams := Attrs.eraseId (objSpread s.params)
  let merged := Attrs.set s.resource safeParams
  ({ params := s.params, resource := merged },
    (save merged).map (fun r => Response.ok (Body.single r)))

/-- The in-memory resource `UpdateRouteHandler.handle()` persists: the loaded
resource with the id-stripped params merged in. -/
def updateMerged (s : UpdateState) : Attrs :=
  Attrs.set s.resource (Attrs.eraseId (objSpread s.params))

/-- The data-model calls a handler can issue from `handle()`. -/
inductive ModelCall
  | fetchAll
  | set (attrs : Attrs)
  | save (tx : Option Nat)
  | destroy (tx : Option Nat)
deriving DecidableEq

/-- Whether a call mutates the database (`set` is in-memory only). -/
def ModelCall.isMutating : ModelCall → Bool
  | .save _ => true
  | .destroy _ => true
  | _ => false

/-- The `transacting` option a call passes, if the call takes one:
`some tx` when the call passes `{ transacting: tx }`, `none` for calls with
no transacting option. -/
def ModelCall.transactingArg : ModelCall → Option (Option Nat)
  | .save tx => some tx
  | .destroy tx => some tx
  | _ => none

/-- The data-model calls each `handle()` body issues, given the stored
params and the stored transaction handle `this._tx` (`none` when
`useTransaction` was never called). Generic and ExistingResource throw
before issuing any call; Show and Exists issue none. -/
def handleCalls : HandlerKind → Attrs → Option Nat → List ModelCall
  | .IndexRouteHandler, _, _ => [ModelCall.fetchAll]
  | .CreateRouteHandler, _, tx => [ModelCall.save tx]
  | .UpdateRouteHandler, params, tx =>
      [ModelCall.set (Attrs.eraseId (objSpread params)), ModelCall.save tx]
  | .DestroyRouteHandler, _, tx => [ModelCall.destroy tx]
  | _, _, _ => []

/-! ### Association-list lemmas for the merge semantics of `set` -/

/-- After deleting `id`, looking up `id` yields nothing. -/
theorem Attrs.get_eraseId_id (p : Attrs) : Attrs.get (Attrs.eraseId p) "id" = none := by
  induction p with
  | nil => rfl
  | cons kv t ih =>
    by_cases hk : kv.1 = "id"
    · simpa [Attrs.eraseId, List.filter_cons, hk] using ih
    · simpa [Attrs.eraseId, List.filter_cons, hk, Attrs.get] using ih

/-- Deleting `id` leaves every other key's value unchanged. -/
theorem Attrs.get_eraseId_ne (p : Attrs) (k : String) (hk : k ≠ "id") :
    Attrs.get (Attrs.eraseId p) k = Attrs.get p k := by
  induction p with
  | nil => rfl
  | cons kv t ih =>
    have hk' : "id" ≠ k := Ne.symm hk
    by_cases h1 : kv.1 = "id"
    · simpa [Attrs.eraseId, List.filter_cons, h1, Attrs.get, hk'] using ih
    · by_cases h2 : kv.1 = k
      · simp [Attrs.eraseId, List.filter_cons, h1, Attrs.get, h2, hk]
      · simpa [Attrs.eraseId, List.filter_cons, h1, Attrs.get, h2] using ih

/-- A key absent from the key list has no value. -/
theorem Attrs.get_eq_none_of_not_mem (l : Attrs) (k : String)
    (h : k ∉ l.map Prod.fst) : Attrs.get l k = none := by
  induction l with
  | nil => rfl
  | cons p t ih =>
    simp only [List.map_cons, List.mem_cons] at h
    push_neg at h
    obtain ⟨h1, h2⟩ := h
    have hne : p.1 ≠ k := fun hh => h1 hh.symm
    simp [Attrs.get, hne, ih h2]

/-- Setting one attribute makes its key read back the new value. -/
theorem Attrs.get_setOne_self (r : Attrs) (kv : String × Nat) :
    Attrs.get (Attrs.setOne r kv) kv.1 = some kv.2 := by
  induction r with
  | nil => simp [Attrs.setOne, Attrs.get]
  | cons p rest ih =>
    by_cases hp : p.1 = kv.1
    · simp [Attrs.setOne, hp, Attrs.get]
    · simp [Attrs.setOne, hp, Attrs.get, ih]

/-- Setting one attribute leaves every other key unchanged. -/
theorem Attrs.get_setOne_ne (r : Attrs) (kv : String × Nat) (k : String)
    (h : kv.1 ≠ k) : Attrs.get (Attrs.setOne r kv) k = Attrs.get r k := by
  have h' : k ≠ kv.1 := Ne.symm h
  induction r with
  | nil => simp [Attrs.setOne, Attrs.get, h]
  | cons p rest ih =>
    by_cases hp : p.1 = kv.1
    · simp [Attrs.setOne, hp, Attrs.get, h]
    · by_cases hk : p.1 = k
      · simp [Attrs.setOne, hp, Attrs.get, hk, h']
      · simp [Attrs.setOne, hp, Attrs.get, hk, ih]

/-- Merging attributes that do not mention a key leaves that key unchanged. -/
theorem Attrs.get_set_of_none (new : Attrs) (r : Attrs) (k : String)
    (h : Attrs.get new k = none) : Attrs.get (Attrs.set r new) k = Attrs.get r k := by
  induction new generalizing r with
  | nil => rfl
  | cons kv t ih =>
    have hne : kv.1 ≠ k := by
      intro hh
      simp [Attrs.get, hh] at h
    have ht : Attrs.get t k = none := by
      simpa [Attrs.get, hne] using h
    calc Attrs.get (Attrs.set r (kv :: t)) k
        = Attrs.get (Attrs.set (Attrs.setOne r kv) t) k := rfl
      _ = Attrs.get (Attrs.setOne r kv) k := ih _ ht
      _ = Attrs.get r k := Attrs.get_setOne_ne r kv k hne

/-- Merging attributes with distinct keys makes each mentioned key read back
its merged value. -/
theorem Attrs.get_set_of_some (new : Attrs) (r : Attrs) (k : String) (v : Nat)
    (hnd : (new.map Prod.fst).Nodup) (h : Attrs.get new k = some v) :
    Attrs.get (Attrs.set r new) k = some v := by
  induction new generalizing r with
  | nil => simp [Attrs.get] at h
  | cons kv t ih =>
    simp only [List.map_cons, List.nodup_cons] at hnd
    obtain ⟨hk1, hk2⟩ := hnd
    by_cases hh : kv.1 = k
    · have hv : kv.2 = v := by
        simpa [Attrs.get, hh] using h
      have hknot : k ∉ t.map Prod.fst := by rw [← hh]; exact hk1
      have ht : Attrs.get t k = none := Attrs.get_eq_none_of_not_mem t k hknot
      calc Attrs.get (Attrs.set r (kv :: t)) k
          = Attrs.get (Attrs.set (Attrs.setOne r kv) t) k := rfl
        _ = Attrs.get (Attrs.setOne r kv) k := Attrs.get_set_of_none t _ k ht
        _ = some kv.2 := by rw [← hh]; exact Attrs.get_setOne_self r kv
        _ = some v := by rw [hv]
    · have ht : Attrs.get t k = some v := by
        simpa [Attrs.get, hh] using h
      exact ih (Attrs.setOne r kv) hk2 ht

/-- Keys of the id-stripped params stay duplicate-free. -/
theorem Attrs.eraseId_keys_nodup (p : Attrs) (hnd : (p.map Prod.fst).Nodup) :
    ((Attrs.eraseId p).map Prod.fst).Nodup :=
  hnd.sublist ((List.filter_sublist p).map Prod.fst)

/-! ### Claims -/

/-- C2: For every handler variant, `requiresTransaction` depends only on the
variant's identity and equals `true` for Create, Update and Destroy, and
`false` for Index, Show and Exists. -/
theorem requiresTransaction_table :
    HandlerKind.requiresTransaction HandlerKind.CreateRouteHandler = true
  ∧ HandlerKind.requiresTransaction HandlerKind.UpdateRouteHandler = true
  ∧ HandlerKind.requiresTransaction HandlerKind.DestroyRouteHandler = true
  ∧ HandlerKind.requiresTransaction HandlerKind.IndexRouteHandler = false
  ∧ HandlerKind.requiresTransaction HandlerKind.ShowRouteHandler = false
  ∧ HandlerKind.requiresTransaction HandlerKind.ExistsRouteHandler = false := by
  decide

/-- C8: For every collection resolved by the data model's `fetchAll`,
`IndexRouteHandler.handle()` responds with success and a body that is
exactly that collection, unfiltered and in the model's order. -/
theorem index_handle_full_collection (collection : List Attrs) :
    (IndexRouteHandler.handle collection).status = 200
  ∧ (IndexRouteHandler.handle collection).body = Body.collection collection :=
  ⟨rfl, rfl⟩

/-- C9: Whenever the fetch of `ExistingResourceRouteHandler.processParams`
resolves — with any value, a null result included — the resolved value is
stored as the context's resource and no not-found response is produced; the
not-found response and the red error log happen exactly when the fetch
rejects, and then the context's resource is never assigned. -/
theorem existing_processParams_resolution (r : Option Attrs) (e : String) :
    (ExistingResourceRouteHandler.processParams (Except.ok r)).ctxResource = some r
  ∧ (ExistingResourceRouteHandler.processParams (Except.ok r)).terminal = none
  ∧ (ExistingResourceRouteHandler.processParams (Except.ok r)).logged = []
  ∧ (ExistingResourceRouteHandler.processParams (Except.error e)).terminal
      = some Response.notFound
  ∧ (ExistingResourceRouteHandler.processParams (Except.error e)).logged = [(e, "red")]
  ∧ (ExistingResourceRouteHandler.processParams (Except.error e)).ctxResource = none :=
  ⟨rfl, rfl, rfl, rfl, rfl, rfl⟩

/-- C1: For every handler derived from `ExistingResourceRouteHandler` (the
leaf `handle` is arbitrary) and every id no database record carries,
`processParams` resolves a not-found response and, under the dispatcher
contract, `handle()` is invoked zero times. -/
theorem existing_resource_notfound_gate (db : List Attrs) (id : Nat)
    (h : ∀ r ∈ db, Attrs.get r "id" ≠ some id)
    (handle : Option Attrs → Except String Response) :
    dispatchExisting db id handle = (0, Except.ok Response.notFound) := by
  have hfind : db.find? (fun r => Attrs.get r "id" == some id) = none := by
    refine List.find?_eq_none.mpr ?_
    intro r hr
    simpa using h r hr
  simp [dispatchExisting, Model.fetchById, hfind,
    ExistingResourceRouteHandler.processParams, Except.map]

/-- Witness for C1 at a one-record database and an absent id. -/
theorem existing_resource_notfound_gate_witness :
    dispatchExisting [[("id", 1)]] 2 (fun _ => Except.ok (Response.ok Body.empty))
      = (0, Except.ok Response.notFound) :=
  existing_resource_notfound_gate [[("id", 1)]] 2 (by decide)
    (fun _ => Except.ok (Response.ok Body.empty))

/-- C3: For every `CreateRouteHandler` whose save succeeds, `handle()`
produces a response with status 201, a `Location` header equal to `urlFor`
applied to the saved resource, and the saved resource as body. -/
theorem create_handle_created_response (urlFor : Attrs → String) (params saved : Attrs)
    (save : Attrs → Except String Attrs) (h : save params = Except.ok saved) :
    ∃ resp, CreateRouteHandler.handle urlFor params save = Except.ok resp
      ∧ resp.status = 201
      ∧ resp.header "Location" = some (urlFor saved)
      ∧ resp.body = Body.single saved := by
  refine ⟨((Response.base.withHeader "Location" (urlFor saved)).withBody
      (Body.single saved)).withStatus 201, ?_, rfl, ?_, rfl⟩
  · simp [CreateRouteHandler.handle, h, Except.map]
  · simp [Response.header, Response.base, Response.withHeader, Response.withBody,
      Response.withStatus]

/-- Witness for C3 at concrete params, saved resource and URL builder. -/
theorem create_handle_created_response_witness :
    ∃ resp, CreateRouteHandler.handle (fun _ => "/things/9") [("a", 1)]
        (fun _ => Except.ok [("id", 9), ("a", 1)]) = Except.ok resp
      ∧ resp.status = 201
      ∧ resp.header "Location" = some "/things/9"
      ∧ resp.body = Body.single [("id", 9), ("a", 1)] :=
  create_handle_created_response (fun _ => "/things/9") [("a", 1)]
    [("id", 9), ("a", 1)] (fun _ => Except.ok [("id", 9), ("a", 1)]) rfl

/-- C5: For every count of records matching the requested id,
`ExistsRouteHandler.processParams` produces a success response with empty
body when the count is nonzero — the same response whatever the nonzero
count, so the value never appears — and a not-found response when the count
is zero. -/
theorem exists_gate_responses (count : Nat) :
    (count ≠ 0 → ExistsRouteHandler.processParams count = Response.ok Body.empty
      ∧ (ExistsRouteHandler.processParams count).status = 200
      ∧ (ExistsRouteHandler.processParams count).body = Body.empty
      ∧ ExistsRouteHandler.processParams count = ExistsRouteHandler.processParams 1)
  ∧ (count = 0 → ExistsRouteHandler.processParams count = Response.notFound
      ∧ (ExistsRouteHandler.processParams count).status = 404) := by
  constructor
  · intro h
    have hb : (count != 0) = true := by simpa using h
    simp [ExistsRouteHandler.processParams, hb, Response.ok]
  · intro h
    simp [ExistsRouteHandler.processParams, h, Response.notFound]

/-- Witness for C5 at counts 3 and 0. -/
theorem exists_gate_responses_witness :
    ExistsRouteHandler.processParams 3 = Response.ok Body.empty
  ∧ ExistsRouteHandler.processParams 0 = Response.notFound :=
  ⟨((exists_gate_responses 3).1 (by decide)).1, ((exists_gate_responses 0).2 rfl).1⟩

/-- C6: For every handler with `requiresTransaction = true`, every mutating
data-model call issued by `handle()` passes the stored transaction handle
as its `transacting` option; every handler with `requiresTransaction =
false` issues no mutating call at all from `handle()`. -/
theorem transaction_discipline (k : HandlerKind) (params : Attrs) (tx : Option Nat) :
    (k.requiresTransaction = true →
      ∀ c ∈ handleCalls k params tx, c.isMutating = true → c.transactingArg = some tx)
  ∧ (k.requiresTransaction = false →
      ∀ c ∈ handleCalls k params tx, c.isMutating = false) := by
  cases k <;>
    simp [HandlerKind.requiresTransaction, handleCalls, ModelCall.isMutating,
      ModelCall.transactingArg]

/-- Witness for C6: the Create handler's save call carries the stored
transaction handle. -/
theorem transaction_discipline_witness :
    (ModelCall.save (some 5)).transactingArg = some (some 5) :=
  (transaction_discipline HandlerKind.CreateRouteHandler [] (some 5)).1 rfl
    (ModelCall.save (some 5)) (by simp [handleCalls]) rfl

/-- C7: Invoking `handle()` on a handler that does not override it falls
through to `GenericRouteHandler.handle`, which throws an error naming the
offending class via its constructor name; the dispatcher propagates the
error uncaught. -/
theorem base_handle_throws (k : HandlerKind) (params : Attrs)
    (h : k.overridesHandle = false) (leaf : Except String Response) :
    runDispatch (GenericRouteHandler.processParams params).2
        (fun _ => dispatchedHandle k leaf)
      = Except.error (k.constructorName ++ " did not implement handle()") := by
  simp [runDispatch, GenericRouteHandler.processParams, dispatchedHandle, h,
    GenericRouteHandler.handle]

/-- Witness for C7 at the base class itself. -/
theorem base_handle_throws_witness :
    runDispatch (GenericRouteHandler.processParams []).2
        (fun _ => dispatchedHandle HandlerKind.GenericRouteHandler
          (Except.ok Response.base))
      = Except.error ("GenericRouteHandler" ++ " did not implement handle()") :=
  base_handle_throws HandlerKind.GenericRouteHandler [] rfl (Except.ok Response.base)

/-- C4: For every `UpdateRouteHandler` with a loaded resource and any
processed parameters (a JS object, so keys are duplicate-free), `handle()`
applies every parameter field except `id` to the resource, leaves fields
absent from the parameters unchanged, never changes the resource's `id`,
and — when persistence succeeds — stores the merged resource and responds
with success carrying it; the in-memory `set` and the `save` call issued by
`handle()` carry the id-stripped fields and the transaction handle. -/
theorem update_handle_merge_frame (s : UpdateState) (save : Attrs → Except String Attrs)
    (hnd : (s.params.map Prod.fst).Nodup)
    (hsave : save (updateMerged s) = Except.ok (updateMerged s)) :
    (∀ k v, k ≠ "id" → Attrs.get s.params k = some v →
        Attrs.get (updateMerged s) k = some v)
  ∧ (∀ k, Attrs.get s.params k = none →
        Attrs.get (updateMerged s) k = Attrs.get s.resource k)
  ∧ Attrs.get (updateMerged s) "id" = Attrs.get s.resource "id"
  ∧ (UpdateRouteHandler.handle s save).2
      = Except.ok (Response.ok (Body.single (updateMerged s)))
  ∧ (UpdateRouteHandler.handle s save).1.resource = updateMerged s
  ∧ (∀ tx, handleCalls HandlerKind.UpdateRouteHandler s.params tx
      = [ModelCall.set (Attrs.eraseId (objSpread s.params)), ModelCall.save tx]) := by
  refine ⟨?_, ?_, ?_, ?_, rfl, fun _ => rfl⟩
  · intro k v hk hv
    have h1 : Attrs.get (Attrs.eraseId s.params) k = some v := by
      rw [Attrs.get_eraseId_ne s.params k hk]; exact hv
    exact Attrs.get_set_of_some (Attrs.eraseId s.params) s.resource k v
      (Attrs.eraseId_keys_nodup s.params hnd) h1
  · intro k hk
    have h1 : Attrs.get (Attrs.eraseId s.params) k = none := by
      by_cases hid : k = "id"
      · rw [hid]; exact Attrs.get_eraseId_id s.params
      · rw [Attrs.get_eraseId_ne s.params k hid]; exact hk
    exact Attrs.get_set_of_none (Attrs.eraseId s.params) s.resource k h1
  · exact Attrs.get_set_of_none (Attrs.eraseId s.params) s.resource "id"
      (Attrs.get_eraseId_id s.params)
  · simp only [UpdateRouteHandler.handle, updateMerged] at hsave ⊢
    rw [hsave]
    rfl

/-- Witness for C4: resource `{id:7, a:1, b:2}` updated with params
`{id:99, a:9}` reads back `a = 9`, `b = 2` and the original `id = 7`, and
the handler responds success with the merged resource. -/
theorem update_handle_merge_frame_witness :
    Attrs.get (updateMerged ⟨[("id", 99), ("a", 9)], [("id", 7), ("a", 1), ("b", 2)]⟩)
        "a" = some 9
  ∧ Attrs.get (updateMerged ⟨[("id", 99), ("a", 9)], [("id", 7), ("a", 1), ("b", 2)]⟩)
        "b" = some 2
  ∧ Attrs.get (updateMerged ⟨[("id", 99), ("a", 9)], [("id", 7), ("a", 1), ("b", 2)]⟩)
        "id" = some 7
  ∧ (UpdateRouteHandler.handle ⟨[("id", 99), ("a", 9)], [("id", 7), ("a", 1), ("b", 2)]⟩
        Except.ok).2
      = Except.ok (Response.ok (Body.single
          (updateMerged ⟨[("id", 99), ("a", 9)], [("id", 7), ("a", 1), ("b", 2)]⟩))) := by
  have h := update_handle_merge_frame
    ⟨[("id", 99), ("a", 9)], [("id", 7), ("a", 1), ("b", 2)]⟩ Except.ok (by decide) rfl
  refine ⟨h.1 "a" 9 (by decide) (by decide), ?_, ?_, h.2.2.2.1⟩
  · rw [h.2.1 "b" (by decide)]; decide
  · rw [h.2.2.1]; decide

/-- C10: `UpdateRouteHandler.handle()` never mutates the stored processed
parameters — `id` is deleted only from the spread copy — so after `handle()`
the handler's params still contain every field they contained before,
`id` included. -/
theorem update_handle_preserves_params (s : UpdateState)
    (save : Attrs → Except String Attrs) :
    (UpdateRouteHandler.handle s save).1.params = s.params
  ∧ (∀ k, Attrs.get (UpdateRouteHandler.handle s save).1.params k
      = Attrs.get s.params k)
  ∧ Attrs.get (UpdateRouteHandler.handle s save).1.params "id"
      = Attrs.get s.params "id" :=
  ⟨rfl, fun _ => rfl, rfl⟩
